import Mathlib

/-!
Verification of the dashboard repository: a shallow embedding of the
sidebar navigation data (`src/utils/dashboardSidebarData.ts`) and of the
two 3D viewer components (`LoadingAssets` and `LoadingMultipleAssets`),
together with theorems settling the specification's claims about them.

The embedding has four parts:
 - the static sidebar navigation tree (`SidebarItem`, `SidebarItemsData`);
 - the `LoadingMultipleAssets` load callbacks as state transitions
   (`ViewerState`, `LoadEvent`, `applyEvent`), plus the corresponding
   `LoadingAssets` callbacks (`AState`, `ALoadEvent`, `applyAEvent`);
 - the render loop's `requestAnimationFrame` protocol (`RafState`,
   `stepRaf`): mount requests a frame, each run of `animate` re-requests
   one, the effect cleanup cancels the request stored in
   `animationFrameId`;
 - the mount and cleanup bodies of both components as effect traces
   (`Effect`, `LoadingAssetsMount`, ...), one entry per statement.
-/

set_option autoImplicit false

/-! Part 1: the sidebar data model of `dashboardSidebarData.ts`. -/

/-- The icon component references imported by the sidebar data module
(`react-icons`).  Each constructor is one of the imported icon values. -/
inductive IconType where
  | AiOutlineTransaction
  | MdOutlineCategory
  | MdOutlineDashboard
  | PiStudentBold
deriving DecidableEq, Repr

/-- The `SidebarItem` interface: `id`, `name`, `module_id`, `path`,
`Icon`, and an optional `sub` list of nested items. -/
inductive SidebarItem where
  | mk (id : Nat) (name : String) (module_id : Nat) (path : String)
       (Icon : IconType) (sub : Option (List SidebarItem))

def SidebarItem.id : SidebarItem → Nat
  | .mk i _ _ _ _ _ => i

def SidebarItem.name : SidebarItem → String
  | .mk _ n _ _ _ _ => n

def SidebarItem.module_id : SidebarItem → Nat
  | .mk _ _ m _ _ _ => m

def SidebarItem.path : SidebarItem → String
  | .mk _ _ _ p _ _ => p

def SidebarItem.Icon : SidebarItem → IconType
  | .mk _ _ _ _ ic _ => ic

def SidebarItem.sub : SidebarItem → Option (List SidebarItem)
  | .mk _ _ _ _ _ s => s

/-- The static navigation tree `SidebarItemsData`, transliterated node by
node from the source module. -/
def SidebarItemsData : List SidebarItem :=
  [ .mk 1 "Dashboard" 1 "/" .MdOutlineDashboard none,
    .mk 2 "Three Js" 1 "" .MdOutlineCategory (some
      [ .mk 21 "Geometries" 1 "" .AiOutlineTransaction (some
          [ .mk 211 "Active Geometries" 1 "/dashboard/geometries" .AiOutlineTransaction none,
            .mk 212 "Active Camera" 1 "/dashboard/camera" .AiOutlineTransaction none ]),
        .mk 22 "Materials" 1 "" .AiOutlineTransaction (some
          [ .mk 221 "All Materials" 1 "/dashboard/materials" .AiOutlineTransaction none,
            .mk 222 "Common Materials" 1 "/dashboard/common-materials" .AiOutlineTransaction none ]) ]),
    .mk 3 "Threejs Loading" 1 "" .AiOutlineTransaction (some
      [ .mk 223 "Loading Multiple Assets" 1 "/dashboard/loading-multiple-assets" .AiOutlineTransaction none,
        .mk 32 "Loading" 1 "" .AiOutlineTransaction (some
          [ .mk 321 "Loading Multiple " 1 "/dashboard/loading-assets" .AiOutlineTransaction none,
            .mk 322 "Branch Settings" 1 "/branches/manage/settings" .AiOutlineTransaction none ]) ]),
    .mk 5 "Geofences" 1 "/geofences/all-geofences" .PiStudentBold none,
    .mk 9 "Groups" 1 "/groups/all-groups" .PiStudentBold none ]

mutual

/-- All nodes of a sidebar item's subtree (the node itself first). -/
def SidebarItem.nodes : SidebarItem → List SidebarItem
  | .mk i n m p ic none => [.mk i n m p ic none]
  | .mk i n m p ic (some l) => .mk i n m p ic (some l) :: nodesList l

/-- All nodes of every subtree in a list of sidebar items. -/
def nodesList : List SidebarItem → List SidebarItem
  | [] => []
  | x :: xs => x.nodes ++ nodesList xs

end

/-- The `id` fields of every node at every depth of the tree. -/
def allSidebarIds : List Nat := (nodesList SidebarItemsData).map SidebarItem.id

/-! Part 2: the `LoadingMultipleAssets` load callbacks.

The component issues six asynchronous loads on mount (one HDR
environment, one SUV body, four wheels) and reacts to each completion in
a callback.  We embed the component state those callbacks touch and each
callback as a state transition (`applyEvent`).  `log` records the
`console.log` / `console.error` output; `issuedLoads` counts the calls
made to a loader's `load` method (all six happen during mount and no
callback issues another one). -/

/-- `totalModels = 5`: 1 body + 4 wheels. -/
def totalModels : Nat := 5

/-- One entry of the `wheelPositions` array. -/
structure WheelPos where
  x : ℚ
  y : ℚ
  z : ℚ
  rotate : Bool
deriving DecidableEq, Repr

/-- The fixed `wheelPositions` list from the component. -/
def wheelPositions : List WheelPos :=
  [ ⟨-0.65, 0.2, -0.77, false⟩,
    ⟨0.65, 0.2, -0.77, true⟩,
    ⟨-0.65, 0.2, 0.57, false⟩,
    ⟨0.65, 0.2, 0.57, true⟩ ]

/-- Objects the component adds to the scene.  A loaded wheel carries its
position and its Y rotation in half-turns (1 records `rotateY(Math.PI)`). -/
inductive SceneObj where
  | ambientLight
  | directionalLight
  | suvBody
  | fallbackCube
  | wheel (x y z : ℚ) (rotYHalfTurns : Nat)
  | gridHelper
deriving DecidableEq, Repr

/-- Values assigned to `scene.background` / `scene.environment`. -/
inductive Background where
  | hdrTexture
  | colorHex (c : Nat)
deriving DecidableEq, Repr

/-- The component state the load callbacks touch: the completion counter
`modelsLoaded`, the `loading` and `error` React states, the scene
contents, and the ghost observations `log` and `issuedLoads`. -/
structure ViewerState where
  modelsLoaded : Nat
  loading : Bool
  errorMsg : Option String
  sceneObjects : List SceneObj
  environment : Option Background
  background : Option Background
  log : List String
  issuedLoads : Nat
deriving DecidableEq, Repr

/-- The state right after the mount effect body has run synchronously:
lights and grid added, `loading` initialized `true`, counter at zero,
and all six loads issued. -/
def initState : ViewerState :=
  { modelsLoaded := 0
    loading := true
    errorMsg := none
    sceneObjects := [.ambientLight, .directionalLight, .gridHelper]
    environment := none
    background := none
    log := []
    issuedLoads := 6 }

/-- A completion of one of the six asynchronous loads: either the
success or the error callback of that load fires. -/
inductive LoadEvent where
  | hdrSuccess
  | hdrError
  | bodySuccess
  | bodyError
  | wheelSuccess (i : Fin 4)
  | wheelError (i : Fin 4)
deriving DecidableEq, Repr

/-- Each load callback of `LoadingMultipleAssets`, transliterated
statement by statement into a state transition. -/
def applyEvent : LoadEvent → ViewerState → ViewerState
  | .hdrSuccess, s =>
      { s with environment := some .hdrTexture
               background := some .hdrTexture
               log := s.log ++ ["HDR loaded successfully"] }
  | .hdrError, s =>
      { s with log := s.log ++ ["Error loading HDR:"]
               errorMsg := some "Failed to load HDR environment. Using fallback."
               background := some (.colorHex 0x87ceeb) }
  | .bodySuccess, s =>
      let m := s.modelsLoaded + 1
      { s with log := s.log ++ ["SUV body loaded"]
               sceneObjects := s.sceneObjects ++ [.suvBody]
               modelsLoaded := m
               loading := if m = totalModels then false else s.loading }
  | .bodyError, s =>
      let m := s.modelsLoaded + 1
      { s with log := s.log ++ ["Error loading SUV body:", "Created fallback cube"]
               errorMsg := some "Failed to load SUV model. Using fallback."
               sceneObjects := s.sceneObjects ++ [.fallbackCube]
               modelsLoaded := m
               loading := if m = totalModels then false else s.loading }
  | .wheelSuccess i, s =>
      let pos := wheelPositions.get ⟨i.val, i.isLt⟩
      let m := s.modelsLoaded + 1
      { s with log := s.log ++ ["Wheel " ++ toString (i.val + 1) ++ " loaded"]
               sceneObjects := s.sceneObjects ++
                 [.wheel pos.x pos.y pos.z (if pos.rotate then 1 else 0)]
               modelsLoaded := m
               loading := if m = totalModels then false else s.loading }
  | .wheelError i, s =>
      let m := s.modelsLoaded + 1
      { s with log := s.log ++ ["Error loading wheel " ++ toString (i.val + 1) ++ ":"]
               modelsLoaded := m
               loading := if m = totalModels then false else s.loading }

/-- Run a sequence of load completions from a given state. -/
def runFrom (s : ViewerState) (es : List LoadEvent) : ViewerState :=
  es.foldl (fun t e => applyEvent e t) s

/-- Run a sequence of load completions from the mount state. -/
def runEvents (es : List LoadEvent) : ViewerState :=
  runFrom initState es

/-- Whether an event is the completion of one of the five GLTF model
loads (as opposed to the HDR environment load). -/
def isModelCompletion : LoadEvent → Bool
  | .hdrSuccess => false
  | .hdrError => false
  | .bodySuccess => true
  | .bodyError => true
  | .wheelSuccess _ => true
  | .wheelError _ => true

/-- Which of the five model loads an event completes (0 = SUV body,
1..4 = the wheels); `none` for the HDR environment load. -/
def loadIndex : LoadEvent → Option (Fin 5)
  | .hdrSuccess => none
  | .hdrError => none
  | .bodySuccess => some 0
  | .bodyError => some 0
  | .wheelSuccess i => some i.succ
  | .wheelError i => some i.succ

/-- Whether an event is the error callback of one of the five GLTF model
loads. -/
def isModelError : LoadEvent → Bool
  | .bodyError => true
  | .wheelError _ => true
  | _ => false

/-- A concrete interleaving of the five model-load completions, used by
the witnesses. -/
def demoEvents : List LoadEvent :=
  [.bodySuccess, .wheelSuccess 0, .wheelSuccess 1, .wheelError 2, .wheelSuccess 3]

/-! Part 3: the `LoadingAssets` load callbacks, embedded the same way. -/

/-- Objects the `LoadingAssets` component adds to its scene. -/
inductive ASceneObj where
  | plane
  | loadedModel
  | ambientLight
  | directionalLight
deriving DecidableEq, Repr

/-- The `LoadingAssets` component state its load callbacks touch:
whether the shared material has its texture map, the scene contents,
and the ghost observations `log` and `issuedLoads`. -/
structure AState where
  materialHasMap : Bool
  sceneObjects : List ASceneObj
  environment : Option Background
  background : Option Background
  log : List String
  issuedLoads : Nat
deriving DecidableEq, Repr

/-- The `LoadingAssets` state after its mount effect has run: plane and
lights added, and three loads (HDR, texture, GLTF model) issued. -/
def initAState : AState :=
  { materialHasMap := false
    sceneObjects := [.plane, .ambientLight, .directionalLight]
    environment := none
    background := none
    log := []
    issuedLoads := 3 }

/-- A completion of one of the three `LoadingAssets` loads. -/
inductive ALoadEvent where
  | hdrSuccess
  | hdrError
  | textureSuccess
  | textureError
  | modelSuccess
  | modelError
deriving DecidableEq, Repr

/-- Each load callback of `LoadingAssets` as a state transition.  All
three error callbacks only `console.error`. -/
def applyAEvent : ALoadEvent → AState → AState
  | .hdrSuccess, s =>
      { s with environment := some .hdrTexture, background := some .hdrTexture }
  | .hdrError, s => { s with log := s.log ++ ["Error loading HDR:"] }
  | .textureSuccess, s => { s with materialHasMap := true }
  | .textureError, s => { s with log := s.log ++ ["Error loading texture:"] }
  | .modelSuccess, s => { s with sceneObjects := s.sceneObjects ++ [.loadedModel] }
  | .modelError, s => { s with log := s.log ++ ["Error loading model:"] }

/-! Part 4: the render loop's `requestAnimationFrame` protocol.

`pending` is the set of outstanding animation-frame requests the browser
still has to fire; `animationFrameId` is the component's variable of the
same name (0 before any request, matching its JavaScript truthiness
check); `nextId` is the browser's next request handle (browsers hand out
handles starting at 1); `framesRun` counts executions of the `animate`
callback.  `fire` is the browser running an outstanding request (the
callback re-requests a frame, as `animate` does); `cleanup` is the mount
effect's cleanup running `cancelAnimationFrame(animationFrameId)`
guarded by `if (animationFrameId)`. -/

/-- State of the render-loop scheduling. -/
structure RafState where
  pending : List Nat
  animationFrameId : Nat
  nextId : Nat
  framesRun : Nat
deriving DecidableEq, Repr

/-- Scheduler-level actions: the browser fires a pending request, or the
component's cleanup runs. -/
inductive RafAction where
  | fire
  | cleanup
deriving DecidableEq, Repr

/-- One scheduler step.  Firing a pending request runs `animate`: it
requests the next frame (storing its handle in `animationFrameId`) and
renders; cleanup cancels the request named by `animationFrameId` when
that variable is truthy. -/
def stepRaf (s : RafState) : RafAction → RafState
  | .fire =>
      match s.pending with
      | [] => s
      | i :: _ =>
          { pending := (s.pending.erase i) ++ [s.nextId]
            animationFrameId := s.nextId
            nextId := s.nextId + 1
            framesRun := s.framesRun + 1 }
  | .cleanup =>
      if s.animationFrameId ≠ 0 then
        { s with pending := s.pending.erase s.animationFrameId }
      else s

/-- The state after mount: `animate()` was called once directly, so one
frame callback has run and exactly one request (handle 1) is pending. -/
def mountRafState : RafState :=
  { pending := [1], animationFrameId := 1, nextId := 2, framesRun := 1 }

/-- Run a sequence of scheduler actions. -/
def runRaf (s : RafState) (acts : List RafAction) : RafState :=
  acts.foldl stepRaf s

/-- The reachable-state invariant of the render loop: at most the single
request named by `animationFrameId` is outstanding, and handles are
nonzero. -/
def GoodRaf (s : RafState) : Prop :=
  (s.pending = [] ∨ s.pending = [s.animationFrameId])
    ∧ s.animationFrameId ≠ 0 ∧ s.nextId ≠ 0

/-! Part 5: the mount and cleanup bodies of both components as effect
traces, one entry per statement, in source order. -/

/-- The primitive effects performed by the components' mount and cleanup
bodies. -/
inductive Effect where
  | clearContainer (which : String)
  | createScene
  | createCamera
  | setCameraPosition
  | createRenderer (antialias alpha : Bool)
  | setClearColor (color : Nat)
  | setToneMapping
  | setSize
  | setPixelRatio
  | appendChild (node container : String)
  | addEventListener (eventName : String)
  | removeEventListener (eventName : String)
  | createControls
  | enableControlsDamping
  | setControlsTarget
  | createMaterial
  | createGeometry (kind : String)
  | addToScene (what : String)
  | issueLoad (loaderKind url : String) (hasOnLoad hasOnProgress hasOnError : Bool)
  | createStats
  | callAnimate
  | cancelFrame
  | removeChildIfContains (node container : String)
  | disposeRenderer
  | disposeControls
  | disposeMaterialMap
  | disposeMaterial
  | disposeGeometry
deriving DecidableEq, Repr

/-- The mount effect body of `LoadingAssets`, statement by statement. -/
def LoadingAssetsMount : List Effect :=
  [ .clearContainer "mountRef", .clearContainer "statsRef",
    .createScene,
    .issueLoad "HDRLoader" "https://sbcode.net/img/venice_sunset_1k.hdr" true false true,
    .createCamera, .setCameraPosition,
    .createRenderer true true, .setClearColor 0x000000, .setToneMapping,
    .setSize, .setPixelRatio,
    .appendChild "renderer.domElement" "mountRef",
    .addEventListener "resize",
    .createControls, .enableControlsDamping,
    .createMaterial,
    .issueLoad "TextureLoader" "https://sbcode.net/img/grid.png" true false true,
    .createGeometry "plane", .addToScene "plane",
    .issueLoad "GLTFLoader" "https://sbcode.net/models/suzanne_no_material.glb" true false true,
    .addToScene "ambientLight", .addToScene "directionalLight",
    .createStats, .appendChild "stats.dom" "statsRef",
    .callAnimate ]

/-- The cleanup body of `LoadingAssets`. -/
def LoadingAssetsCleanup : List Effect :=
  [ .removeEventListener "resize", .cancelFrame,
    .removeChildIfContains "renderer.domElement" "mountRef",
    .removeChildIfContains "stats.dom" "statsRef",
    .disposeRenderer, .disposeMaterialMap, .disposeMaterial, .disposeGeometry,
    .disposeControls ]

/-- The mount effect body of `LoadingMultipleAssets`, statement by
statement. -/
def LoadingMultipleAssetsMount : List Effect :=
  [ .clearContainer "mountRef", .clearContainer "statsRef",
    .createScene, .createCamera, .setCameraPosition,
    .createRenderer true true, .setClearColor 0x000000, .setToneMapping,
    .setSize, .setPixelRatio,
    .appendChild "renderer.domElement" "mountRef",
    .addEventListener "resize",
    .createControls, .setControlsTarget, .enableControlsDamping,
    .addToScene "ambientLight", .addToScene "directionalLight",
    .issueLoad "HDRLoader" "/img/venice_sunset_1k.hdr" true false true,
    .issueLoad "GLTFLoader" "/models/suv_body.glb" true false true,
    .issueLoad "GLTFLoader" "/models/suv_wheel.glb" true false true,
    .issueLoad "GLTFLoader" "/models/suv_wheel.glb" true false true,
    .issueLoad "GLTFLoader" "/models/suv_wheel.glb" true false true,
    .issueLoad "GLTFLoader" "/models/suv_wheel.glb" true false true,
    .addToScene "gridHelper",
    .createStats, .appendChild "stats.dom" "statsRef",
    .callAnimate ]

/-- The cleanup body of `LoadingMultipleAssets`. -/
def LoadingMultipleAssetsCleanup : List Effect :=
  [ .removeEventListener "resize", .cancelFrame,
    .removeChildIfContains "renderer.domElement" "mountRef",
    .removeChildIfContains "stats.dom" "statsRef",
    .disposeRenderer, .disposeControls ]

/-- Whether an effect, if it is a load call, was issued with both a
success callback and an error callback. -/
def loadCallbacksOk : Effect → Bool
  | .issueLoad _ _ hasOnLoad _ hasOnError => hasOnLoad && hasOnError
  | _ => true

/-! Part 6: the whole app's state, for the frame property of the sidebar
data: the only operations the repository performs at runtime are the
viewer load callbacks and the render-loop steps, and none of them
references the sidebar module. -/

/-- The application state: the sidebar data next to the runtime state of
the viewer and its render loop. -/
structure AppState where
  sidebar : List SidebarItem
  viewer : ViewerState
  raf : RafState

/-- The application state right after module initialization and mount. -/
def appInit : AppState :=
  { sidebar := SidebarItemsData, viewer := initState, raf := mountRafState }

/-- A load callback lifted to the application state. -/
def appApplyLoad (e : LoadEvent) (s : AppState) : AppState :=
  { s with viewer := applyEvent e s.viewer }

/-- A render-loop step lifted to the application state. -/
def appStepRaf (a : RafAction) (s : AppState) : AppState :=
  { s with raf := stepRaf s.raf a }

/-! Helper lemmas. -/

theorem modelCompletion_step (e : LoadEvent) (s : ViewerState)
    (h : isModelCompletion e = true) :
    (applyEvent e s).modelsLoaded = s.modelsLoaded + 1 ∧
    (applyEvent e s).loading =
      (if s.modelsLoaded + 1 = totalModels then false else s.loading) := by
  cases e <;> simp_all [applyEvent, isModelCompletion]

theorem length_filterMap_loadIndex (es : List LoadEvent)
    (h : ∀ e ∈ es, isModelCompletion e = true) :
    (es.filterMap loadIndex).length = es.length := by
  induction es with
  | nil => rfl
  | cons e es ih =>
      have he := h e (List.mem_cons_self ..)
      have ht : ∀ x ∈ es, isModelCompletion x = true :=
        fun x hx => h x (List.mem_cons_of_mem _ hx)
      cases e <;> simp_all [loadIndex, List.filterMap_cons, isModelCompletion]

theorem run_take_spec (es : List LoadEvent)
    (hall : ∀ e ∈ es, isModelCompletion e = true) (hlen : es.length = 5) :
    ∀ k, k ≤ es.length →
      (runEvents (es.take k)).modelsLoaded = k ∧
      (runEvents (es.take k)).loading = decide (k < totalModels) := by
  intro k
  induction k with
  | zero => intro _; simp [runEvents, runFrom, initState, totalModels]
  | succ k ih =>
      intro hk
      have hk' : k < es.length := Nat.lt_of_succ_le hk
      have ihk := ih (Nat.le_of_lt hk')
      have htake : es.take (k + 1) = es.take k ++ [es.get ⟨k, hk'⟩] := by
        rw [List.take_succ]
        simp [List.getElem?_eq_getElem hk']
      have hmem : es.get ⟨k, hk'⟩ ∈ es := List.get_mem es _ hk'
      have hstep := modelCompletion_step (es.get ⟨k, hk'⟩) (runEvents (es.take k))
        (hall _ hmem)
      have hrun : runEvents (es.take (k + 1)) =
          applyEvent (es.get ⟨k, hk'⟩) (runEvents (es.take k)) := by
        simp only [runEvents, runFrom, htake, List.foldl_append]
        rfl
      rw [hrun]
      refine ⟨by rw [hstep.1, ihk.1], ?_⟩
      rw [hstep.2, ihk.1, ihk.2]
      by_cases h5 : k + 1 = totalModels
      · simp [h5]
      · have hlt : k + 1 < totalModels := by
          simp [totalModels] at h5 ⊢
          omega
        have hlt' : k < totalModels := Nat.lt_of_succ_lt hlt
        simp [h5, hlt, hlt']

theorem goodRaf_step (s : RafState) (a : RafAction) (h : GoodRaf s) :
    GoodRaf (stepRaf s a) := by
  obtain ⟨hp, hid, hnext⟩ := h
  cases a with
  | fire =>
      rcases hp with hp | hp
      · simp [stepRaf, hp, GoodRaf, hid, hnext]
      · simp [stepRaf, hp, GoodRaf, hnext]
  | cleanup =>
      rcases hp with hp | hp <;>
        simp [stepRaf, hp, GoodRaf, hid, hnext]

theorem goodRaf_run (acts : List RafAction) : ∀ s : RafState, GoodRaf s →
    GoodRaf (runRaf s acts) := by
  induction acts with
  | nil => intro s h; exact h
  | cons a acts ih =>
      intro s h
      exact ih (stepRaf s a) (goodRaf_step s a h)

theorem mount_goodRaf : GoodRaf mountRafState := by
  refine ⟨Or.inr rfl, ?_, ?_⟩ <;> decide

theorem cleanup_pending_empty (s : RafState) (h : GoodRaf s) :
    (stepRaf s .cleanup).pending = [] := by
  obtain ⟨hp, hid, _⟩ := h
  rcases hp with hp | hp <;> simp [stepRaf, hp, hid]

theorem fire_noop (s : RafState) (h : s.pending = []) : stepRaf s .fire = s := by
  simp [stepRaf, h]

theorem run_fires_noop (fs : List RafAction) : ∀ s : RafState,
    (∀ a ∈ fs, a = RafAction.fire) → s.pending = [] → runRaf s fs = s := by
  induction fs with
  | nil => intro s _ _; rfl
  | cons a fs ih =>
      intro s hall hp
      have ha : a = RafAction.fire := hall a (List.mem_cons_self ..)
      have hrest : ∀ x ∈ fs, x = RafAction.fire :=
        fun x hx => hall x (List.mem_cons_of_mem _ hx)
      have hstep : stepRaf s a = s := by rw [ha]; exact fire_noop s hp
      show runRaf (stepRaf s a) fs = s
      rw [hstep]
      exact ih s hrest hp

theorem sidebar_foldl_load (es : List LoadEvent) : ∀ s : AppState,
    (es.foldl (fun t e => appApplyLoad e t) s).sidebar = s.sidebar := by
  induction es with
  | nil => intro s; rfl
  | cons e es ih => intro s; exact ih (appApplyLoad e s)

theorem sidebar_foldl_raf (acts : List RafAction) : ∀ s : AppState,
    (acts.foldl (fun t a => appStepRaf a t) s).sidebar = s.sidebar := by
  induction acts with
  | nil => intro s; rfl
  | cons a acts ih => intro s; exact ih (appStepRaf a s)

/-! Claim theorems. -/

/-- C3: in the sidebar navigation tree `SidebarItemsData`, the `id`
fields of all nodes at every nesting depth (top-level items, their sub
items, and sub-sub items) are pairwise distinct. -/
theorem sidebar_ids_nodup : allSidebarIds.Nodup := by decide

/-- C8: in `SidebarItemsData`, a node's `path` is the empty string if
and only if the node has a `sub` (children) list; equivalently, every
leaf has a non-empty path and every node with children has an empty
path. -/
theorem sidebar_path_empty_iff_sub :
    ∀ x ∈ nodesList SidebarItemsData, (x.path = "" ↔ x.sub.isSome = true) := by
  decide

/-- C8 witness: the theorem applied at the first node of the tree. -/
theorem sidebar_path_empty_iff_sub_witness :
    ((SidebarItem.mk 1 "Dashboard" 1 "/" .MdOutlineDashboard none).path = ""
      ↔ (SidebarItem.mk 1 "Dashboard" 1 "/" .MdOutlineDashboard none).sub.isSome = true) :=
  sidebar_path_empty_iff_sub _ (List.Mem.head _)

/-- C6 counterexample: the spec's field list (`id`, `name`, `path`, icon
reference, optional children) does not exhaust a node's fields: the
`SidebarItem` interface carries an additional `module_id` field, so two
nodes can agree on all five spec fields yet differ (here, in
`module_id`). -/
theorem sidebar_node_fields_counterexample :
    (SidebarItem.mk 1 "Dashboard" 1 "/" .MdOutlineDashboard none).id
      = (SidebarItem.mk 1 "Dashboard" 2 "/" .MdOutlineDashboard none).id
    ∧ (SidebarItem.mk 1 "Dashboard" 1 "/" .MdOutlineDashboard none).name
      = (SidebarItem.mk 1 "Dashboard" 2 "/" .MdOutlineDashboard none).name
    ∧ (SidebarItem.mk 1 "Dashboard" 1 "/" .MdOutlineDashboard none).path
      = (SidebarItem.mk 1 "Dashboard" 2 "/" .MdOutlineDashboard none).path
    ∧ (SidebarItem.mk 1 "Dashboard" 1 "/" .MdOutlineDashboard none).Icon
      = (SidebarItem.mk 1 "Dashboard" 2 "/" .MdOutlineDashboard none).Icon
    ∧ (SidebarItem.mk 1 "Dashboard" 1 "/" .MdOutlineDashboard none).sub
      = (SidebarItem.mk 1 "Dashboard" 2 "/" .MdOutlineDashboard none).sub
    ∧ SidebarItem.mk 1 "Dashboard" 1 "/" .MdOutlineDashboard none
      ≠ SidebarItem.mk 1 "Dashboard" 2 "/" .MdOutlineDashboard none := by
  refine ⟨rfl, rfl, rfl, rfl, rfl, ?_⟩
  intro h
  injection h with h1 h2 h3 h4 h5 h6
  exact absurd h3 (by decide)

/-- C6 (amended): every node consists of exactly the fields `id`,
`name`, `module_id`, `path`, `Icon`, and the optional `sub` children
list: these six fields determine the node. -/
theorem sidebar_node_fields (a b : SidebarItem)
    (hid : a.id = b.id) (hname : a.name = b.name)
    (hmod : a.module_id = b.module_id) (hpath : a.path = b.path)
    (hicon : a.Icon = b.Icon) (hsub : a.sub = b.sub) : a = b := by
  cases a; cases b
  simp only [SidebarItem.id, SidebarItem.name, SidebarItem.module_id,
    SidebarItem.path, SidebarItem.Icon, SidebarItem.sub] at hid hname hmod hpath hicon hsub
  subst hid; subst hname; subst hmod; subst hpath; subst hicon; subst hsub
  rfl

/-- C6 witness: the amended theorem applied at a concrete node. -/
theorem sidebar_node_fields_witness :
    SidebarItem.mk 1 "Dashboard" 1 "/" .MdOutlineDashboard none
      = SidebarItem.mk 1 "Dashboard" 1 "/" .MdOutlineDashboard none :=
  sidebar_node_fields _ _ rfl rfl rfl rfl rfl rfl

/-- C1: the five GLTF loads of `LoadingMultipleAssets` are coordinated
only by the counter `modelsLoaded`: every model-load completion (success
or error callback alike) increments the counter by exactly one, and for
every interleaving of the five loads' completions (each load completing
exactly once, by either callback), after `k` completions the counter is
`k`, the `loading` flag is still `true` while `k < totalModels = 5`, and
the completion that makes the counter reach 5 sets `loading` to
`false`. -/
theorem model_loads_counter_coordination (es : List LoadEvent)
    (hall : ∀ e ∈ es, isModelCompletion e = true)
    (hperm : List.Perm (es.filterMap loadIndex) (List.finRange 5)) :
    (∀ (s : ViewerState) (e : LoadEvent), isModelCompletion e = true →
        (applyEvent e s).modelsLoaded = s.modelsLoaded + 1) ∧
    ∀ k, k ≤ es.length →
      (runEvents (es.take k)).modelsLoaded = k ∧
      (runEvents (es.take k)).loading = decide (k < totalModels) := by
  have hlen : es.length = 5 := by
    have h1 := length_filterMap_loadIndex es hall
    have h2 := hperm.length_eq
    simp [List.length_finRange] at h2
    omega
  exact ⟨fun s e he => (modelCompletion_step e s he).1, run_take_spec es hall hlen⟩

/-- C1 witness: a concrete interleaving in which wheel 3 fails and the
rest succeed; after all five completions the counter is 5 and `loading`
is off. -/
theorem model_loads_counter_coordination_witness :
    (runEvents (demoEvents.take 5)).modelsLoaded = 5 ∧
    (runEvents (demoEvents.take 5)).loading = decide (5 < totalModels) :=
  (model_loads_counter_coordination demoEvents (by decide) (by decide)).2 5 (by decide)

/-- C2: a GLTF model-load failure in a viewer component only logs the
error (`console.error`, plus the displayed error message for the SUV
body), adds at most the static fallback cube to the scene, and performs
the completion-counter bookkeeping; no new load is issued (no retry),
the environment and background are untouched (no recovery), and the
callback is a total state transition (nothing is propagated).  The
second half covers the `LoadingAssets` model-load failure, whose whole
effect is one log line. -/
theorem model_load_failure_reaction (e : LoadEvent) (s : ViewerState)
    (h : isModelError e = true) (t : AState) :
    ((applyEvent e s).issuedLoads = s.issuedLoads
     ∧ (applyEvent e s).environment = s.environment
     ∧ (applyEvent e s).background = s.background
     ∧ ((applyEvent e s).sceneObjects = s.sceneObjects
        ∨ (applyEvent e s).sceneObjects = s.sceneObjects ++ [SceneObj.fallbackCube])
     ∧ (∃ msgs, msgs ≠ [] ∧ (applyEvent e s).log = s.log ++ msgs)
     ∧ (applyEvent e s).modelsLoaded = s.modelsLoaded + 1
     ∧ ((applyEvent e s).errorMsg = s.errorMsg
        ∨ (applyEvent e s).errorMsg = some "Failed to load SUV model. Using fallback."))
    ∧ ((applyAEvent .modelError t).log = t.log ++ ["Error loading model:"]
       ∧ (applyAEvent .modelError t).issuedLoads = t.issuedLoads
       ∧ (applyAEvent .modelError t).sceneObjects = t.sceneObjects
       ∧ (applyAEvent .modelError t).materialHasMap = t.materialHasMap
       ∧ (applyAEvent .modelError t).environment = t.environment
       ∧ (applyAEvent .modelError t).background = t.background) := by
  refine ⟨?_, rfl, rfl, rfl, rfl, rfl, rfl⟩
  cases e <;> simp_all [applyEvent, isModelError]

/-- C2 witness: the theorem applied at the SUV body error callback in
the mount state: no load is re-issued and the counter advances by one. -/
theorem model_load_failure_reaction_witness :
    (applyEvent .bodyError initState).issuedLoads = initState.issuedLoads ∧
    (applyEvent .bodyError initState).modelsLoaded = initState.modelsLoaded + 1 :=
  ⟨(model_load_failure_reaction .bodyError initState rfl initAState).1.1,
   (model_load_failure_reaction .bodyError initState rfl initAState).1.2.2.2.2.2.1⟩

/-- C9: completion of the HDR environment load leaves `modelsLoaded` and
`loading` (and the scene objects, the issued loads, and on success the
error message) unchanged: on success it only sets the scene's
environment and background to the HDR texture, and on failure it only
sets the error message and the fallback sky-blue background color, so
the loading indicator depends solely on the five GLTF model loads. -/
theorem hdr_completion_leaves_loading (s : ViewerState) :
    (applyEvent .hdrSuccess s).modelsLoaded = s.modelsLoaded
    ∧ (applyEvent .hdrSuccess s).loading = s.loading
    ∧ (applyEvent .hdrSuccess s).sceneObjects = s.sceneObjects
    ∧ (applyEvent .hdrSuccess s).errorMsg = s.errorMsg
    ∧ (applyEvent .hdrSuccess s).issuedLoads = s.issuedLoads
    ∧ (applyEvent .hdrSuccess s).environment = some .hdrTexture
    ∧ (applyEvent .hdrSuccess s).background = some .hdrTexture
    ∧ (applyEvent .hdrError s).modelsLoaded = s.modelsLoaded
    ∧ (applyEvent .hdrError s).loading = s.loading
    ∧ (applyEvent .hdrError s).sceneObjects = s.sceneObjects
    ∧ (applyEvent .hdrError s).environment = s.environment
    ∧ (applyEvent .hdrError s).issuedLoads = s.issuedLoads
    ∧ (applyEvent .hdrError s).errorMsg
        = some "Failed to load HDR environment. Using fallback."
    ∧ (applyEvent .hdrError s).background = some (.colorHex 0x87ceeb) :=
  ⟨rfl, rfl, rfl, rfl, rfl, rfl, rfl, rfl, rfl, rfl, rfl, rfl, rfl, rfl⟩

/-- C10: a successfully loaded wheel `i` is placed at exactly the `i`-th
entry of `wheelPositions` and is rotated by a half-turn around Y exactly
when that entry's `rotate` flag is set, and the flag is set precisely on
the entries with `x = 0.65`. -/
theorem wheel_success_position (i : Fin 4) (s : ViewerState) :
    (applyEvent (.wheelSuccess i) s).sceneObjects =
      s.sceneObjects ++
        [SceneObj.wheel (wheelPositions.get ⟨i.val, i.isLt⟩).x
          (wheelPositions.get ⟨i.val, i.isLt⟩).y
          (wheelPositions.get ⟨i.val, i.isLt⟩).z
          (if (wheelPositions.get ⟨i.val, i.isLt⟩).rotate then 1 else 0)]
    ∧ ((wheelPositions.get ⟨i.val, i.isLt⟩).rotate = true
        ↔ (wheelPositions.get ⟨i.val, i.isLt⟩).x = 0.65) := by
  refine ⟨rfl, ?_⟩
  fin_cases i <;> simp only [wheelPositions, List.get] <;> norm_num

/-- C4: the render loop is a single per-frame callback: in every
reachable scheduler state at most one animation-frame request is
outstanding; and after the cleanup runs (cancelling the request stored
in `animationFrameId`), no pending request remains, so any further
browser frame firings change nothing: in particular no further `animate`
callback runs (`framesRun` stays constant). -/
theorem raf_cancelled_on_cleanup (as fs : List RafAction)
    (hfs : ∀ a ∈ fs, a = RafAction.fire) :
    (runRaf mountRafState (as ++ [RafAction.cleanup])).pending = []
    ∧ runRaf (runRaf mountRafState (as ++ [RafAction.cleanup])) fs
        = runRaf mountRafState (as ++ [RafAction.cleanup])
    ∧ (runRaf (runRaf mountRafState (as ++ [RafAction.cleanup])) fs).framesRun
        = (runRaf mountRafState (as ++ [RafAction.cleanup])).framesRun
    ∧ ∀ bs : List RafAction, (runRaf mountRafState bs).pending.length ≤ 1 := by
  have hgood : GoodRaf (runRaf mountRafState as) :=
    goodRaf_run as mountRafState mount_goodRaf
  have hsplit : runRaf mountRafState (as ++ [RafAction.cleanup])
      = stepRaf (runRaf mountRafState as) .cleanup := by
    simp [runRaf, List.foldl_append]
  have hpend : (runRaf mountRafState (as ++ [RafAction.cleanup])).pending = [] := by
    rw [hsplit]; exact cleanup_pending_empty _ hgood
  have hfix := run_fires_noop fs _ hfs hpend
  refine ⟨hpend, hfix, by rw [hfix], ?_⟩
  intro bs
  have hg := goodRaf_run bs mountRafState mount_goodRaf
  rcases hg.1 with hp | hp <;> simp [hp]

/-- C4 witness: two frames run, cleanup cancels, and two further browser
firings change nothing. -/
theorem raf_cancelled_on_cleanup_witness :
    (runRaf mountRafState ([RafAction.fire, RafAction.fire] ++ [RafAction.cleanup])).pending = []
    ∧ runRaf (runRaf mountRafState ([RafAction.fire, RafAction.fire] ++ [RafAction.cleanup]))
        [RafAction.fire, RafAction.fire]
        = runRaf mountRafState ([RafAction.fire, RafAction.fire] ++ [RafAction.cleanup]) :=
  ⟨(raf_cancelled_on_cleanup [RafAction.fire, RafAction.fire]
      [RafAction.fire, RafAction.fire] (by decide)).1,
   (raf_cancelled_on_cleanup [RafAction.fire, RafAction.fire]
      [RafAction.fire, RafAction.fire] (by decide)).2.1⟩

/-- C5: each viewer component's mount body constructs the rendering
context (scene, camera, renderer, controls), issues every one of its
asynchronous loads with both a success and an error callback
(`LoadingAssets`: HDR, texture, GLTF model; `LoadingMultipleAssets`:
HDR, SUV body, four wheels), and starts the per-frame callback; and each
cleanup body removes the resize listener, cancels the frame request,
removes the DOM nodes the mount added (renderer canvas and stats panel),
and disposes the renderer and the controls. -/
theorem viewer_mount_unmount_lifecycle :
    (LoadingAssetsMount.all loadCallbacksOk = true
     ∧ Effect.createScene ∈ LoadingAssetsMount
     ∧ Effect.createCamera ∈ LoadingAssetsMount
     ∧ Effect.createRenderer true true ∈ LoadingAssetsMount
     ∧ Effect.createControls ∈ LoadingAssetsMount
     ∧ Effect.issueLoad "HDRLoader" "https://sbcode.net/img/venice_sunset_1k.hdr"
         true false true ∈ LoadingAssetsMount
     ∧ Effect.issueLoad "TextureLoader" "https://sbcode.net/img/grid.png"
         true false true ∈ LoadingAssetsMount
     ∧ Effect.issueLoad "GLTFLoader" "https://sbcode.net/models/suzanne_no_material.glb"
         true false true ∈ LoadingAssetsMount
     ∧ Effect.callAnimate ∈ LoadingAssetsMount
     ∧ Effect.removeEventListener "resize" ∈ LoadingAssetsCleanup
     ∧ Effect.cancelFrame ∈ LoadingAssetsCleanup
     ∧ Effect.removeChildIfContains "renderer.domElement" "mountRef" ∈ LoadingAssetsCleanup
     ∧ Effect.removeChildIfContains "stats.dom" "statsRef" ∈ LoadingAssetsCleanup
     ∧ Effect.disposeRenderer ∈ LoadingAssetsCleanup
     ∧ Effect.disposeControls ∈ LoadingAssetsCleanup)
    ∧ (LoadingMultipleAssetsMount.all loadCallbacksOk = true
     ∧ Effect.createScene ∈ LoadingMultipleAssetsMount
     ∧ Effect.createCamera ∈ LoadingMultipleAssetsMount
     ∧ Effect.createRenderer true true ∈ LoadingMultipleAssetsMount
     ∧ Effect.createControls ∈ LoadingMultipleAssetsMount
     ∧ Effect.issueLoad "HDRLoader" "/img/venice_sunset_1k.hdr"
         true false true ∈ LoadingMultipleAssetsMount
     ∧ Effect.issueLoad "GLTFLoader" "/models/suv_body.glb"
         true false true ∈ LoadingMultipleAssetsMount
     ∧ LoadingMultipleAssetsMount.count
         (Effect.issueLoad "GLTFLoader" "/models/suv_wheel.glb" true false true) = 4
     ∧ Effect.callAnimate ∈ LoadingMultipleAssetsMount
     ∧ Effect.removeEventListener "resize" ∈ LoadingMultipleAssetsCleanup
     ∧ Effect.cancelFrame ∈ LoadingMultipleAssetsCleanup
     ∧ Effect.removeChildIfContains "renderer.domElement" "mountRef"
         ∈ LoadingMultipleAssetsCleanup
     ∧ Effect.removeChildIfContains "stats.dom" "statsRef" ∈ LoadingMultipleAssetsCleanup
     ∧ Effect.disposeRenderer ∈ LoadingMultipleAssetsCleanup
     ∧ Effect.disposeControls ∈ LoadingMultipleAssetsCleanup) := by
  set_option synthInstance.maxSize 1000 in
  set_option maxHeartbeats 1000000 in
  refine ⟨?_, ?_⟩ <;> decide

/-- C7: `SidebarItemsData` has no lifecycle beyond being imported: no
runtime operation of the repository (load callbacks, render-loop steps)
mutates the array or any of its nodes, so after any sequence of such
operations the sidebar data is still the module-initialization value. -/
theorem sidebar_never_mutated :
    (∀ (e : LoadEvent) (s : AppState), (appApplyLoad e s).sidebar = s.sidebar)
    ∧ (∀ (a : RafAction) (s : AppState), (appStepRaf a s).sidebar = s.sidebar)
    ∧ ∀ (es : List LoadEvent) (acts : List RafAction),
        (acts.foldl (fun t a => appStepRaf a t)
          (es.foldl (fun t e => appApplyLoad e t) appInit)).sidebar
          = SidebarItemsData := by
  refine ⟨fun e s => rfl, fun a s => rfl, fun es acts => ?_⟩
  rw [sidebar_foldl_raf, sidebar_foldl_load]
  rfl
